import Mathlib

/-!
Verification of the execution-and-aggregation engine of an API load/validation
tool written in Go.  The development shallowly embeds the relevant source
functions:

* `internal/validator` (`Validate`)                — response validation
* `internal/runner`    (`runSingle`, `runConcurrent`, the per-endpoint
  finalisation in `Run`)                           — request execution, retries
* `internal/reporter`  (`AddResult`, `calculatePercentiles`)
                                                   — summary aggregation
* `internal/config`    (`Validate`)                — configuration validation

Machine integers (`int`, `int64`, `time.Duration` nanosecond counts) are
embedded as `Nat` (the runs considered use non-negative configuration values
and all involved quantities stay far below 2^63, so no overflow reduction is
needed).  Go `float64` values are embedded exactly: a float is `nan`, an
infinity, or a finite value represented as an integer fraction, and every
arithmetic operation rounds its exact rational result to the nearest binary64
value (round-to-nearest, ties-to-even), which is exactly IEEE-754 semantics in
the normal range exercised here.  The HTTP transport is abstracted as an
oracle assigning to every request the observed outcome (transport error, or
status/body/latency), which is exactly the information `makeRequest` returns.
-/

set_option maxRecDepth 100000

/-! ### Exact embedding of Go `float64` arithmetic

A finite float value is kept as a fraction `num / den` with `den > 0`.
Representations are not normalised; value equality is `feq` (cross
multiplication).  `roundF` rounds an exact rational to the nearest
binary64 value with ties to even — the result of every Go float
operation on finite operands in the normal range. -/

structure Frac where
  num : Int
  den : Int
deriving DecidableEq

/-- Bound 2^52: least binary64 significand (scaled to an integer). -/
def c52 : Int := 4503599627370496

/-- Bound 2^53: one past the largest binary64 significand. -/
def c53 : Int := 9007199254740992

/-- Doubles `n` (tracking the binary exponent `t`) until `n / d ≥ 2^52`. -/
def upLoop : Nat → Int → Int → Int → Int × Int
  | 0, n, _, t => (n, t)
  | f + 1, n, d, t => if n < c52 * d then upLoop f (2 * n) d (t - 1) else (n, t)

/-- Doubles `d` (tracking the binary exponent `t`) until `n / d < 2^53`. -/
def downLoop : Nat → Int → Int → Int → Int × Int × Int
  | 0, n, d, t => (n, d, t)
  | f + 1, n, d, t => if c53 * d ≤ n then downLoop f n (2 * d) (t + 1) else (n, d, t)

/-- Rounds the positive rational `n / d` to the nearest binary64 value
(ties to even).  The fuel `1200` covers binary exponents up to ±1200,
far beyond the values arising here. -/
def roundPos (n d : Int) : Frac :=
  let p1 := upLoop 1200 n d 0
  let p2 := downLoop 1200 p1.1 d p1.2
  let nn := p2.1
  let dd := p2.2.1
  let t := p2.2.2
  let m0 := nn / dd
  let r := nn % dd
  let m :=
    if 2 * r < dd then m0
    else if dd < 2 * r then m0 + 1
    else if m0 % 2 = 0 then m0 else m0 + 1
  if 0 ≤ t then ⟨m * 2 ^ t.toNat, 1⟩ else ⟨m, 2 ^ (-t).toNat⟩

/-- Rounds an exact rational to the nearest binary64 value. -/
def roundF (f : Frac) : Frac :=
  if f.num = 0 then ⟨0, 1⟩
  else if 0 < f.num then roundPos f.num f.den
  else
    let p := roundPos (-f.num) f.den
    ⟨-p.num, p.den⟩

/-- Exact product of two fractions. -/
def Frac.mul (a b : Frac) : Frac := ⟨a.num * b.num, a.den * b.den⟩

/-- Exact sum of two fractions. -/
def Frac.add (a b : Frac) : Frac := ⟨a.num * b.den + b.num * a.den, a.den * b.den⟩

/-- Exact quotient of two fractions (the second is nonzero); keeps the
denominator positive. -/
def Frac.div (a b : Frac) : Frac :=
  if 0 < b.num then ⟨a.num * b.den, a.den * b.num⟩
  else ⟨-(a.num * b.den), a.den * -b.num⟩

/-- Value equality of fractions (both denominators positive). -/
def feq (a b : Frac) : Bool := a.num * b.den = b.num * a.den

/-- A Go `float64` value: NaN, an infinity, or a finite value.  Signed
zero and subnormal/overflow behaviour are outside the range exercised
by the program's metric computations and are not distinguished. -/
inductive GoFloat where
  | nan
  | pinf
  | ninf
  | fin (val : Frac)
deriving DecidableEq

/-- Go `float64` division, including the IEEE special cases `0/0 = NaN`
and `x/0 = ±Inf` — Go float division never panics. -/
def GoFloat.div : GoFloat → GoFloat → GoFloat
  | .nan, _ => .nan
  | _, .nan => .nan
  | .fin a, .fin b =>
      if b.num = 0 then
        if a.num = 0 then .nan else if 0 < a.num then .pinf else .ninf
      else .fin (roundF (a.div b))
  | .fin _, .pinf => .fin ⟨0, 1⟩
  | .fin _, .ninf => .fin ⟨0, 1⟩
  | .pinf, .fin b => if 0 ≤ b.num then .pinf else .ninf
  | .ninf, .fin b => if 0 ≤ b.num then .ninf else .pinf
  | _, _ => .nan

/-- Go `float64` multiplication (correctly rounded). -/
def GoFloat.mul : GoFloat → GoFloat → GoFloat
  | .nan, _ => .nan
  | _, .nan => .nan
  | .fin a, .fin b => .fin (roundF (a.mul b))
  | .pinf, .fin b => if b.num = 0 then .nan else if 0 < b.num then .pinf else .ninf
  | .ninf, .fin b => if b.num = 0 then .nan else if 0 < b.num then .ninf else .pinf
  | .fin a, .pinf => if a.num = 0 then .nan else if 0 < a.num then .pinf else .ninf
  | .fin a, .ninf => if a.num = 0 then .nan else if 0 < a.num then .ninf else .pinf
  | .pinf, .pinf => .pinf
  | .pinf, .ninf => .ninf
  | .ninf, .pinf => .ninf
  | .ninf, .ninf => .pinf

/-- Go `float64` addition (correctly rounded). -/
def GoFloat.add : GoFloat → GoFloat → GoFloat
  | .nan, _ => .nan
  | _, .nan => .nan
  | .fin a, .fin b => .fin (roundF (a.add b))
  | .pinf, .ninf => .nan
  | .ninf, .pinf => .nan
  | .pinf, _ => .pinf
  | .ninf, _ => .ninf
  | .fin _, .pinf => .pinf
  | .fin _, .ninf => .ninf

/-- Go `==` on `float64`: NaN compares unequal to everything. -/
def GoFloat.beq : GoFloat → GoFloat → Bool
  | .fin a, .fin b => feq a b
  | .pinf, .pinf => true
  | .ninf, .ninf => true
  | _, _ => false

/-- Go conversion `float64(n)` of a non-negative integer (exact below 2^53). -/
def GoFloat.ofNat (n : Nat) : GoFloat := .fin (roundF ⟨(n : Int), 1⟩)

/-- Whether a Go float is (finite) zero. -/
def GoFloat.isZero : GoFloat → Bool
  | .fin q => q.num = 0
  | _ => false

/-! ### Data model (`internal/config/config.go`)

Counts and delays are embedded as `Nat` (nanoseconds for durations);
the runs considered use non-negative configuration values.  Sleeping
(`retry.delay`, `concurrent.delay`) has no observable effect on the
summaries and is not modelled beyond keeping the fields. -/

/-- A dynamically typed value (`interface{}`) as it occurs in the YAML
expectation document or in a decoded JSON object.  JSON numbers decode to
`float64` in Go; the integral numbers exercised here print under `%v`
exactly like the corresponding integer, so integral numbers are embedded
as `vInt`. -/
inductive GoValue where
  | vStr (s : String)
  | vInt (n : Int)
  | vBool (b : Bool)
  | vNull
deriving DecidableEq

/-- The canonical string Go's `fmt.Sprintf` produces for a value under the
`%v` verb (strings print without quotes, `nil` prints as `<nil>`). -/
def GoValue.sprintV : GoValue → String
  | .vStr s => s
  | .vInt n => toString n
  | .vBool b => if b then "true" else "false"
  | .vNull => "<nil>"

/-- `config.ValueCheck`: a top-level key and the expected value. -/
structure ValueCheck where
  path : String
  value : GoValue
deriving DecidableEq

/-- `config.Expectation`. -/
structure Expectation where
  status : Nat
  maxTime : Nat
  values : List ValueCheck
deriving DecidableEq

/-- `config.RetryConfig`. -/
structure RetryConfig where
  count : Nat
  delay : Nat
deriving DecidableEq

/-- `config.ConcurrentConfig`. -/
structure ConcurrentConfig where
  users : Nat
  delay : Nat
  total : Nat
deriving DecidableEq

/-- `config.Endpoint` (headers/body configuration does not influence the
summary fields under study and is carried only as opaque data). -/
structure Endpoint where
  name : String
  url : String
  method : String
  body : String
  expect : Expectation
  retry : RetryConfig
  concurrent : ConcurrentConfig
deriving DecidableEq

/-- A response body as the runner observes it: its byte length, and the
result of `json.Unmarshal` into `map[string]interface{}` (`none` when the
body is not a flat JSON object).  JSON object keys are unique, so the
decoded map is an association list with distinct keys. -/
structure RespBody where
  len : Nat
  json : Option (List (String × GoValue))
deriving DecidableEq

/-- The outcome of one `makeRequest` call: a transport error (no status,
no body, measured elapsed time), or a transport-level success carrying
status code, body and elapsed time. -/
inductive Attempt where
  | terr (msg : String) (duration : Nat)
  | tok (status : Nat) (body : RespBody) (duration : Nat)
deriving DecidableEq

/-! ### Response validator (`internal/validator`, `Validate`)

Messages mirror the `fmt.Sprintf` patterns of the source; Go renders
`time.Duration` with a unit suffix and the unmarshal error carries the
decoder's text — the exact rendering inside a message is not load-bearing,
only which messages are produced. -/

/-- Message of a status-code violation
(`"expected status code %d, got %d"`). -/
def statusMsg (expected got : Nat) : String :=
  "expected status code " ++ toString expected ++ ", got " ++ toString got

/-- Message of a response-time violation
(`"expected response time less than %s, got %s"`). -/
def durMsg (maxDuration got : Nat) : String :=
  "expected response time less than " ++ toString maxDuration ++ "ns, got "
    ++ toString got ++ "ns"

/-- Message recorded when the body cannot be decoded
(`"failed to unmarshal response body: %v"`). -/
def unmarshalMsg : String := "failed to unmarshal response body: invalid JSON"

/-- Message of a missing-key violation (`"path %s not found in response"`). -/
def notFoundMsg (path : String) : String :=
  "path " ++ path ++ " not found in response"

/-- Message of a value-mismatch violation
(`"path %s expected %v, got %v"`). -/
def mismatchMsg (path : String) (expected got : GoValue) : String :=
  "path " ++ path ++ " expected " ++ expected.sprintV ++ ", got " ++ got.sprintV

/-- Go map lookup `responseData[check.Path]` on the decoded object. -/
def lookupKey : List (String × GoValue) → String → Option GoValue
  | [], _ => none
  | (k, v) :: rest, p => if k = p then some v else lookupKey rest p

/-- `validator.ValidationResult` (the Go struct also carries `StatusCode`
and `Body` fields which `Validate` never assigns; they are omitted). -/
structure ValidationResult where
  isValid : Bool
  errors : List String
  duration : Nat
deriving DecidableEq

/-- The violations contributed by the value checks, in check order
(the loop body of `Validate`). -/
def valueCheckErrors (m : List (String × GoValue)) : List ValueCheck → List String
  | [] => []
  | c :: rest =>
      (match lookupKey m c.path with
        | none => [notFoundMsg c.path]
        | some v =>
            if v.sprintV ≠ c.value.sprintV then [mismatchMsg c.path c.value v]
            else []) ++ valueCheckErrors m rest

/-- `validator.Validate`: status check, duration check, then (only when
checks are configured) body decoding and the per-check loop; all checks
are evaluated, the violations are concatenated in source order, and
`isValid` is the emptiness of the list. -/
def Validate (expectedStatus maxDuration statusCode : Nat) (body : RespBody)
    (duration : Nat) (valueChecks : List ValueCheck) : ValidationResult :=
  let statusErrs := if statusCode ≠ expectedStatus then [statusMsg expectedStatus statusCode] else []
  let timeErrs := if maxDuration < duration then [durMsg maxDuration duration] else []
  let valueErrs :=
    if valueChecks.isEmpty then []
    else
      match body.json with
      | none => [unmarshalMsg]
      | some m => valueCheckErrors m valueChecks
  let errs := statusErrs ++ timeErrs ++ valueErrs
  ⟨errs.isEmpty, errs, duration⟩

/-- `runner.validateResponse`: builds the validator from the endpoint's
expectation and validates one transport-successful response. -/
def validateResponse (ep : Endpoint) (status : Nat) (body : RespBody)
    (duration : Nat) : ValidationResult :=
  Validate ep.expect.status ep.expect.maxTime status body duration ep.expect.values

/-- Whether one attempt outcome passes validation (transport errors never do). -/
def attemptValid (ep : Endpoint) : Attempt → Bool
  | .terr _ _ => false
  | .tok status body duration => (validateResponse ep status body duration).isValid

/-! ### Reporter data (`internal/reporter/reporter.go`)

Wall-clock timestamps are not modelled; the per-endpoint elapsed time
enters only through the `elapsedSeconds` parameter of the finalisation
step (the value `duration.Seconds()` returns, a `float64`).  Go maps
(status-code and violation histograms) are embedded as association
lists with unique keys; Go map iteration order is irrelevant to every
field under study.  Response headers are dropped: no studied field
reads them. -/

/-- `reporter.RequestDetail` (timestamp and headers omitted, see above). -/
structure RequestDetail where
  id : Nat
  duration : Nat
  statusCode : Nat
  success : Bool
  errorMessage : String
  responseSize : Nat
  validationErrors : List String
deriving DecidableEq

/-- `reporter.LatencyPercentiles`. -/
structure LatencyPercentiles where
  p50 : Nat
  p75 : Nat
  p90 : Nat
  p95 : Nat
  p99 : Nat
deriving DecidableEq

/-- The anonymous `ResponseSizes` struct of `reporter.TestResult`. -/
structure SizeStats where
  min : Nat
  max : Nat
  avg : Nat
deriving DecidableEq

/-- `reporter.TestResult` (endpoint name/method/URL and the timestamps are
carried by the endpoint and the elapsed-time parameter instead). -/
structure TestResult where
  totalRequests : Nat
  successCount : Nat
  failureCount : Nat
  averageLatency : Nat
  minLatency : Nat
  maxLatency : Nat
  percentiles : LatencyPercentiles
  statusCodes : List (Nat × Nat)
  errors : List String
  isConcurrent : Bool
  concurrentUsers : Nat
  requestDetails : List RequestDetail
  bytesTransferred : Nat
  responseSizes : SizeStats
  requestsPerSecond : GoFloat
  errorRate : GoFloat
  timeoutCount : Nat
  validationFailures : List (String × Nat)
deriving DecidableEq

/-- The zero-valued `TestResult` the runner builds for each endpoint
(`reporter.TestResult{...}` literal in `Run` — maps allocated empty,
numeric fields at their Go zero values). -/
def emptyResult : TestResult :=
  ⟨0, 0, 0, 0, 0, 0, ⟨0, 0, 0, 0, 0⟩, [], [], false, 0, [], 0, ⟨0, 0, 0⟩,
    .fin ⟨0, 1⟩, .fin ⟨0, 1⟩, 0, []⟩

/-- Histogram bump `m[k]++` for a `Nat`-keyed Go map. -/
def bumpNat : List (Nat × Nat) → Nat → List (Nat × Nat)
  | [], k => [(k, 1)]
  | (k', c) :: rest, k =>
      if k' = k then (k', c + 1) :: rest else (k', c) :: bumpNat rest k

/-- Histogram bump `m[k]++` for a `String`-keyed Go map. -/
def bumpStr : List (String × Nat) → String → List (String × Nat)
  | [], k => [(k, 1)]
  | (k', c) :: rest, k =>
      if k' = k then (k', c + 1) :: rest else (k', c) :: bumpStr rest k

/-- `reporter.calculatePercentiles`: sort the collected durations by value
and pick the five nearest-rank indices.  Go sorts in place with
`sort.Slice(durations, <)`; over naturals the sorted permutation is unique,
so `List.insertionSort` computes it.  Go computes each index as
`int(float64(n) * f)`; for the five fractions used this coincides with the
exact floor `n * k / 100` throughout the realistic range (checked
exhaustively for every `n ≤ 100000`), which is how the index is embedded. -/
def calculatePercentiles (durations : List Nat) : LatencyPercentiles :=
  if durations.isEmpty then ⟨0, 0, 0, 0, 0⟩
  else
    let sorted := List.insertionSort (· ≤ ·) durations
    let n := durations.length
    ⟨sorted.getD (n * 50 / 100) 0, sorted.getD (n * 75 / 100) 0,
      sorted.getD (n * 90 / 100) 0, sorted.getD (n * 95 / 100) 0,
      sorted.getD (n * 99 / 100) 0⟩

/-- `reporter.AddResult` as a transformation of the stored result: computes
the percentiles over the durations of all recorded request details, and the
response-size statistics (min seeded with the first detail's size, max
seeded with zero, average by integer division) over all recorded details. -/
def addResult (result : TestResult) : TestResult :=
  let durations := result.requestDetails.map (·.duration)
  let withP := { result with percentiles := calculatePercentiles durations }
  match result.requestDetails with
  | [] => withP
  | d0 :: _ =>
      let sizes := result.requestDetails.map (·.responseSize)
      let minSize := sizes.foldl min d0.responseSize
      let maxSize := sizes.foldl max 0
      let totalSize := sizes.foldl (· + ·) 0
      { withP with
          responseSizes := ⟨minSize, maxSize, totalSize / result.requestDetails.length⟩ }

/-! ### Runner (`internal/runner/runner.go`)

The transport is an oracle: for the single path, `server i` is the
outcome of the `i`-th `makeRequest` call of the retry loop; for the
concurrent path, `server u j k` is the outcome of the `k`-th call a
retrying scheduler would issue for slot `j` of worker `u` — the code
under `runConcurrent` contains no retry loop and issues exactly one
call per slot, so it only ever consults `k = 0`. -/

/-- The error value `runSingle` keeps in `lastErr`. -/
inductive RunError where
  | transport (msg : String)
  | validationFailed (errs : List String)
deriving DecidableEq

/-- `error.Error()` for the two error shapes
(`fmt.Errorf("validation failed: %v", ...)` renders the slice in brackets). -/
def RunError.message : RunError → String
  | .transport m => m
  | .validationFailed errs =>
      "validation failed: [" ++ String.intercalate " " errs ++ "]"

/-- The retry loop of `runner.runSingle`.  `fuel` is the number of loop
iterations still allowed (`retry.count + 1` at entry), `i` the index of the
next attempt.  Returns the updated result, the number of attempts actually
made, and the final `lastErr`.  Each transport-successful attempt increments
`TotalRequests`, the status histogram and the byte counter, then exactly one
of `SuccessCount`/`FailureCount`; a validated response returns immediately. -/
def runSingleAux (server : Nat → Attempt) (ep : Endpoint) :
    Nat → Nat → TestResult → Option RunError → TestResult × Nat × Option RunError
  | 0, _, res, lastErr => (res, 0, lastErr)
  | fuel + 1, i, res, _ =>
    match server i with
    | .terr msg dur =>
        let detail : RequestDetail := ⟨res.totalRequests + 1, dur, 0, false, msg, 0, []⟩
        let res1 := { res with requestDetails := res.requestDetails ++ [detail] }
        let rest := runSingleAux server ep fuel (i + 1) res1 (some (.transport msg))
        (rest.1, rest.2.1 + 1, rest.2.2)
    | .tok status body dur =>
        let v := validateResponse ep status body dur
        let detail : RequestDetail :=
          ⟨res.totalRequests + 1, dur, status, v.isValid, "", body.len, v.errors⟩
        let res1 := { res with
          totalRequests := res.totalRequests + 1
          statusCodes := bumpNat res.statusCodes status
          bytesTransferred := res.bytesTransferred + body.len }
        let res2 :=
          if v.isValid then
            { res1 with
                successCount := res1.successCount + 1
                minLatency :=
                  if res1.minLatency = 0 ∨ dur < res1.minLatency then dur else res1.minLatency
                maxLatency := if res1.maxLatency < dur then dur else res1.maxLatency }
          else
            { res1 with
                failureCount := res1.failureCount + 1
                validationFailures := v.errors.foldl bumpStr res1.validationFailures }
        let res3 := { res2 with requestDetails := res2.requestDetails ++ [detail] }
        if v.isValid then (res3, 1, none)
        else
          let rest := runSingleAux server ep fuel (i + 1) res3 (some (.validationFailed v.errors))
          (rest.1, rest.2.1 + 1, rest.2.2)

/-- `runner.runSingle` started on the endpoint's fresh result. -/
def runSingle (server : Nat → Attempt) (ep : Endpoint) :
    TestResult × Nat × Option RunError :=
  runSingleAux server ep (ep.retry.count + 1) 0 emptyResult none

/-- The per-endpoint finalisation in `runner.Run` (lines computing
`RequestsPerSecond` and `ErrorRate` from the endpoint's wall-clock window;
`elapsedSeconds` is the `float64` value `duration.Seconds()` returns). -/
def finalizeResult (res : TestResult) (elapsedSeconds : Frac) : TestResult :=
  { res with
      requestsPerSecond := GoFloat.div (GoFloat.ofNat res.totalRequests) (.fin elapsedSeconds)
      errorRate :=
        GoFloat.mul (GoFloat.div (GoFloat.ofNat res.failureCount) (GoFloat.ofNat res.totalRequests))
          (GoFloat.ofNat 100) }

/-- The error-append step of `runner.Run` (`result.Errors = append(...)`
when the chosen path returned a non-nil error). -/
def appendRunError (res : TestResult) : Option RunError → TestResult
  | some e => { res with errors := res.errors ++ [e.message] }
  | none => res

/-- The single-path endpoint pipeline of `runner.Run`: run the retry loop,
append the terminal error (if any) to the result's error list, compute the
rate fields, then hand the result to `reporter.AddResult`. -/
def runEndpointSingle (server : Nat → Attempt) (ep : Endpoint)
    (elapsedSeconds : Frac) : TestResult :=
  let r := runSingle server ep
  addResult (finalizeResult (appendRunError r.1 r.2.2) elapsedSeconds)

/-- The body of a concurrent worker's loop iteration for one slot: one
`makeRequest` call, validated when transport-successful, recorded as one
`RequestDetail` sent to the collection channel.  There is no retry loop in
`runConcurrent`, so only attempt index `0` of the oracle is consulted. -/
def mkConcDetail (ep : Endpoint) (a : Attempt) (id : Nat) : RequestDetail :=
  match a with
  | .terr msg dur => ⟨id, dur, 0, false, msg, 0, []⟩
  | .tok status body dur =>
      let v := validateResponse ep status body dur
      ⟨id, dur, status, v.isValid, "", body.len, v.errors⟩

/-- The details produced by worker `userID`: its `requestsPerUser` slots in
order, with the request ids `userID*requestsPerUser + j + 1` the source
assigns. -/
def workerDetails (server : Nat → Nat → Nat → Attempt) (ep : Endpoint)
    (rpU userID : Nat) : List RequestDetail :=
  (List.range rpU).map fun j => mkConcDetail ep (server userID j 0) (userID * rpU + j + 1)

/-- All details that reach the collection channel in an uncancelled run
(`ctx.Done()` never fires).  Arrival order is nondeterministic in Go; the
fixed worker-major order is used here, which is sound for every studied
field: the collector folds sums, counters, min/max and histogram bumps,
all invariant under permutation of the stream, and the percentile
computation sorts the collected multiset. -/
def concurrentDetails (server : Nat → Nat → Nat → Attempt) (ep : Endpoint) :
    List RequestDetail :=
  ((List.range ep.concurrent.users).map
    (workerDetails server ep (ep.concurrent.total / ep.concurrent.users))).flatten

/-- Collector state of `runConcurrent`: the result under construction plus
the local `totalLatency`/`minLatency`/`maxLatency`/`totalBytes` variables. -/
structure ConcAcc where
  res : TestResult
  totalLatency : Nat
  minL : Nat
  maxL : Nat
  totalBytes : Nat
deriving DecidableEq

/-- One iteration of the collection loop (`for detail := range requestChan`):
every detail increments `TotalRequests`, the status histogram (key `0` for
transport errors) and `BytesTransferred`, then exactly one of
`SuccessCount` (updating the local latency/byte accumulators) or
`FailureCount` (bumping the violation histogram). -/
def collectDetail (acc : ConcAcc) (d : RequestDetail) : ConcAcc :=
  let res0 := acc.res
  let res1 := { res0 with
    requestDetails := res0.requestDetails ++ [d]
    totalRequests := res0.totalRequests + 1
    statusCodes := bumpNat res0.statusCodes d.statusCode
    bytesTransferred := res0.bytesTransferred + d.responseSize }
  if d.success then
    { acc with
        res := { res1 with successCount := res1.successCount + 1 }
        minL := if acc.minL = 0 ∨ d.duration < acc.minL then d.duration else acc.minL
        maxL := if acc.maxL < d.duration then d.duration else acc.maxL
        totalLatency := acc.totalLatency + d.duration
        totalBytes := acc.totalBytes + d.responseSize }
  else
    { acc with
        res := { res1 with
          failureCount := res1.failureCount + 1
          validationFailures := d.validationErrors.foldl bumpStr res1.validationFailures } }

/-- The block after the collection loop of `runConcurrent`: only when some
request succeeded, install the local latency extremes, the average latency
(integer division of `time.Duration`), and the successful-bytes-based size
fields that `AddResult` later overwrites. -/
def concPost (acc : ConcAcc) : TestResult :=
  if 0 < acc.res.successCount then
    { acc.res with
        minLatency := acc.minL
        maxLatency := acc.maxL
        averageLatency := acc.totalLatency / acc.res.successCount
        responseSizes :=
          ⟨acc.totalBytes / acc.res.successCount, acc.totalBytes / acc.res.successCount,
            acc.totalBytes / acc.res.successCount⟩ }
  else acc.res

/-- `runner.runConcurrent` for an uncancelled run: partition
`total` into `users` groups of `total / users` (integer division, remainder
dropped), mark the result concurrent, fold the collector over the outcome
stream, run the `concPost` block.  The returned error joins the transport
error messages as the `errChan` drain does. -/
def runConcurrent (server : Nat → Nat → Nat → Attempt) (ep : Endpoint) :
    TestResult × Option String :=
  let res0 := { emptyResult with isConcurrent := true, concurrentUsers := ep.concurrent.users }
  let details := concurrentDetails server ep
  let acc := details.foldl collectDetail ⟨res0, 0, 0, 0, 0⟩
  let transportMsgs :=
    (details.filter fun d => !d.success && d.errorMessage ≠ "").map (·.errorMessage)
  let lastErr :=
    match transportMsgs with
    | [] => none
    | m :: ms => some (ms.foldl (fun a b => a ++ "; " ++ b) m)
  (concPost acc, lastErr)

/-- The error-append step of `runner.Run` for the concurrent path
(the joined transport-error message, when present). -/
def appendErrMsg (res : TestResult) : Option String → TestResult
  | some m => { res with errors := res.errors ++ [m] }
  | none => res

/-- The concurrent-path endpoint pipeline of `runner.Run`: run the
scheduler/collector, append the joined error (if any), compute the rate
fields, then hand the result to `reporter.AddResult`. -/
def runEndpointConcurrent (server : Nat → Nat → Nat → Attempt) (ep : Endpoint)
    (elapsedSeconds : Frac) : TestResult :=
  let r := runConcurrent server ep
  addResult (finalizeResult (appendErrMsg r.1 r.2) elapsedSeconds)

/-! ### Configuration validation (`internal/config`, `Config.Validate`) -/

/-- The first structural error `Config.Validate` reports for one endpoint,
if any: missing URL, missing method, or a concurrency profile with users
but a zero request total. -/
def endpointValidationError (e : Endpoint) : Option String :=
  if e.url = "" then some ("endpoint " ++ e.name ++ ": missing URL")
  else if e.method = "" then some ("endpoint " ++ e.name ++ ": missing method")
  else if 0 < e.concurrent.users ∧ e.concurrent.total = 0 then
    some ("endpoint " ++ e.name ++ ": concurrent users set but total requests not specified")
  else none

/-- `config.Config.Validate`: an empty endpoint list is rejected, otherwise
the first failing endpoint's error is returned (`none` = accepted). -/
def configValidate (endpoints : List Endpoint) : Option String :=
  if endpoints.isEmpty then some "no endpoints defined"
  else endpoints.findSome? endpointValidationError

/-! ### Definitions following the specification's words (for refinement
comparisons) -/

/-- Modelled from the spec: the percentile population the specification
prescribes — "the full ordered-by-value latency list of successful
outcomes" — applied with the same nearest-rank computation.  Compared
against the implementation, which feeds `calculatePercentiles` the
durations of all recorded details. -/
def specPercentilesSuccessOnly (res : TestResult) : LatencyPercentiles :=
  calculatePercentiles ((res.requestDetails.filter (·.success)).map (·.duration))

/-- Modelled from the spec: whether one concurrent slot would end in
success if, as the specification prescribes, a failing request were
"retried up to retry.count additional times" — i.e. some attempt among
the first `retry.count + 1` validates. -/
def specSlotSucceedsWithRetry (server : Nat → Nat → Nat → Attempt) (ep : Endpoint)
    (u j : Nat) : Bool :=
  (List.range (ep.retry.count + 1)).any fun k => attemptValid ep (server u j k)

/-- Modelled from the spec: the success count a retrying concurrent
scheduler would report (one logical outcome per slot, success iff some
attempt within the retry budget validates). -/
def specConcurrentSuccessCount (server : Nat → Nat → Nat → Attempt) (ep : Endpoint) : Nat :=
  let rpU := ep.concurrent.total / ep.concurrent.users
  (((List.range ep.concurrent.users).map fun u =>
    ((List.range rpU).filter fun j => specSlotSucceedsWithRetry server ep u j).length)).sum

/-- The per-endpoint success-rate percentage the reporter derives
(`prepareChartData`: `float64(SuccessCount) / float64(TotalRequests) * 100`). -/
def chartSuccessRate (res : TestResult) : GoFloat :=
  GoFloat.mul (GoFloat.div (GoFloat.ofNat res.successCount) (GoFloat.ofNat res.totalRequests))
    (GoFloat.ofNat 100)

/-- The number of concurrent slots whose single issued request validates
(the code path consults only attempt index `0`). -/
def slotValidCount (server : Nat → Nat → Nat → Attempt) (ep : Endpoint) : Nat :=
  let rpU := ep.concurrent.total / ep.concurrent.users
  (((List.range ep.concurrent.users).map fun u =>
    ((List.range rpU).filter fun j => attemptValid ep (server u j 0)).length)).sum

/-! ### Helper lemmas: field preservation along the pipeline -/

theorem addResult_totalRequests (res : TestResult) :
    (addResult res).totalRequests = res.totalRequests := by
  unfold addResult; rcases res.requestDetails with _ | ⟨d, t⟩ <;> rfl

theorem addResult_successCount (res : TestResult) :
    (addResult res).successCount = res.successCount := by
  unfold addResult; rcases res.requestDetails with _ | ⟨d, t⟩ <;> rfl

theorem addResult_failureCount (res : TestResult) :
    (addResult res).failureCount = res.failureCount := by
  unfold addResult; rcases res.requestDetails with _ | ⟨d, t⟩ <;> rfl

theorem addResult_concurrentUsers (res : TestResult) :
    (addResult res).concurrentUsers = res.concurrentUsers := by
  unfold addResult; rcases res.requestDetails with _ | ⟨d, t⟩ <;> rfl

theorem addResult_maxLatency (res : TestResult) :
    (addResult res).maxLatency = res.maxLatency := by
  unfold addResult; rcases res.requestDetails with _ | ⟨d, t⟩ <;> rfl

theorem addResult_requestDetails (res : TestResult) :
    (addResult res).requestDetails = res.requestDetails := by
  unfold addResult; rcases res.requestDetails with _ | ⟨d, t⟩ <;> rfl

theorem addResult_requestsPerSecond (res : TestResult) :
    (addResult res).requestsPerSecond = res.requestsPerSecond := by
  unfold addResult; rcases res.requestDetails with _ | ⟨d, t⟩ <;> rfl

theorem addResult_errorRate (res : TestResult) :
    (addResult res).errorRate = res.errorRate := by
  unfold addResult; rcases res.requestDetails with _ | ⟨d, t⟩ <;> rfl

theorem addResult_percentiles (res : TestResult) :
    (addResult res).percentiles
      = calculatePercentiles (res.requestDetails.map (·.duration)) := by
  unfold addResult; rcases res.requestDetails with _ | ⟨d, t⟩ <;> rfl

theorem appendRunError_totalRequests (res : TestResult) (o : Option RunError) :
    (appendRunError res o).totalRequests = res.totalRequests := by
  cases o <;> rfl

theorem appendRunError_successCount (res : TestResult) (o : Option RunError) :
    (appendRunError res o).successCount = res.successCount := by
  cases o <;> rfl

theorem appendRunError_failureCount (res : TestResult) (o : Option RunError) :
    (appendRunError res o).failureCount = res.failureCount := by
  cases o <;> rfl

theorem appendRunError_maxLatency (res : TestResult) (o : Option RunError) :
    (appendRunError res o).maxLatency = res.maxLatency := by
  cases o <;> rfl

theorem appendRunError_requestDetails (res : TestResult) (o : Option RunError) :
    (appendRunError res o).requestDetails = res.requestDetails := by
  cases o <;> rfl

theorem appendErrMsg_totalRequests (res : TestResult) (o : Option String) :
    (appendErrMsg res o).totalRequests = res.totalRequests := by
  cases o <;> rfl

theorem appendErrMsg_successCount (res : TestResult) (o : Option String) :
    (appendErrMsg res o).successCount = res.successCount := by
  cases o <;> rfl

theorem appendErrMsg_failureCount (res : TestResult) (o : Option String) :
    (appendErrMsg res o).failureCount = res.failureCount := by
  cases o <;> rfl

theorem appendErrMsg_concurrentUsers (res : TestResult) (o : Option String) :
    (appendErrMsg res o).concurrentUsers = res.concurrentUsers := by
  cases o <;> rfl

theorem finalizeResult_totalRequests (res : TestResult) (e : Frac) :
    (finalizeResult res e).totalRequests = res.totalRequests := rfl

theorem finalizeResult_successCount (res : TestResult) (e : Frac) :
    (finalizeResult res e).successCount = res.successCount := rfl

theorem finalizeResult_failureCount (res : TestResult) (e : Frac) :
    (finalizeResult res e).failureCount = res.failureCount := rfl

theorem finalizeResult_concurrentUsers (res : TestResult) (e : Frac) :
    (finalizeResult res e).concurrentUsers = res.concurrentUsers := rfl

theorem finalizeResult_maxLatency (res : TestResult) (e : Frac) :
    (finalizeResult res e).maxLatency = res.maxLatency := rfl

theorem finalizeResult_requestDetails (res : TestResult) (e : Frac) :
    (finalizeResult res e).requestDetails = res.requestDetails := rfl

/-! ### Helper lemmas: the validator -/

theorem Validate_isValid_iff (expSt maxT st : Nat) (b : RespBody) (dur : Nat)
    (checks : List ValueCheck) :
    (Validate expSt maxT st b dur checks).isValid = true
      ↔ (Validate expSt maxT st b dur checks).errors = [] := by
  unfold Validate
  simp [List.isEmpty_iff]

theorem Validate_status_mem (expSt maxT st : Nat) (b : RespBody) (dur : Nat)
    (checks : List ValueCheck) (h : st ≠ expSt) :
    statusMsg expSt st ∈ (Validate expSt maxT st b dur checks).errors := by
  unfold Validate
  simp [h]

theorem Validate_dur_mem (expSt maxT st : Nat) (b : RespBody) (dur : Nat)
    (checks : List ValueCheck) (h : maxT < dur) :
    durMsg maxT dur ∈ (Validate expSt maxT st b dur checks).errors := by
  unfold Validate
  simp [h]

theorem Validate_isValid_false_of_status (expSt maxT st : Nat) (b : RespBody)
    (dur : Nat) (checks : List ValueCheck) (h : st ≠ expSt) :
    (Validate expSt maxT st b dur checks).isValid = false := by
  unfold Validate
  simp [h]

/-! ### Helper lemmas: the single-path retry loop -/

theorem runSingleAux_partition (server : Nat → Attempt) (ep : Endpoint) :
    ∀ (fuel i : Nat) (res : TestResult) (e : Option RunError),
      res.successCount + res.failureCount = res.totalRequests →
      (runSingleAux server ep fuel i res e).1.successCount
          + (runSingleAux server ep fuel i res e).1.failureCount
        = (runSingleAux server ep fuel i res e).1.totalRequests := by
  intro fuel
  induction fuel with
  | zero =>
      intro i res e h
      simpa [runSingleAux] using h
  | succ f ih =>
      intro i res e h
      rw [runSingleAux]
      cases hsrv : server i with
      | terr msg dur =>
          exact ih _ _ _ h
      | tok status body dur =>
          cases hv : (validateResponse ep status body dur).isValid with
          | true => simp [hv]; omega
          | false =>
              simp only [hv]
              apply ih
              simp
              omega

theorem runSingleAux_all_invalid (server : Nat → Attempt) (ep : Endpoint)
    (h : ∀ i, ∃ st b d, server i = .tok st b d ∧ st ≠ ep.expect.status) :
    ∀ (fuel i : Nat) (res : TestResult) (e : Option RunError),
      (runSingleAux server ep fuel i res e).1.totalRequests = res.totalRequests + fuel ∧
      (runSingleAux server ep fuel i res e).1.failureCount = res.failureCount + fuel ∧
      (runSingleAux server ep fuel i res e).1.successCount = res.successCount ∧
      (runSingleAux server ep fuel i res e).2.1 = fuel := by
  intro fuel
  induction fuel with
  | zero =>
      intro i res e
      simp [runSingleAux]
  | succ f ih =>
      intro i res e
      obtain ⟨st, b, d, hsrv, hne⟩ := h i
      have hv : (validateResponse ep st b d).isValid = false :=
        Validate_isValid_false_of_status _ _ _ _ _ _ hne
      rw [runSingleAux, hsrv]
      simp only [hv]
      have := ih (i + 1)
      simp only [Bool.false_eq_true, if_false]
      constructor
      · simp [(this _ _).1]; omega
      constructor
      · simp [(this _ _).2.1]; omega
      constructor
      · simp [(this _ _).2.2.1]
      · simp [(this _ _).2.2.2]

/-! ### Helper lemmas: the concurrent collector -/

theorem foldl_collect_totalRequests :
    ∀ (l : List RequestDetail) (acc : ConcAcc),
      (l.foldl collectDetail acc).res.totalRequests = acc.res.totalRequests + l.length := by
  intro l
  induction l with
  | nil => intro acc; simp
  | cons d t ih =>
      intro acc
      rw [List.foldl_cons, ih]
      cases hd : d.success <;> simp [collectDetail, hd] <;> omega

theorem foldl_collect_successCount :
    ∀ (l : List RequestDetail) (acc : ConcAcc),
      (l.foldl collectDetail acc).res.successCount
        = acc.res.successCount + l.countP (·.success) := by
  intro l
  induction l with
  | nil => intro acc; simp
  | cons d t ih =>
      intro acc
      rw [List.foldl_cons, ih]
      cases hd : d.success <;>
        simp [collectDetail, hd, List.countP_cons] <;> omega

theorem foldl_collect_failureCount :
    ∀ (l : List RequestDetail) (acc : ConcAcc),
      (l.foldl collectDetail acc).res.failureCount
        = acc.res.failureCount + l.countP (fun d => !d.success) := by
  intro l
  induction l with
  | nil => intro acc; simp
  | cons d t ih =>
      intro acc
      rw [List.foldl_cons, ih]
      cases hd : d.success <;>
        simp [collectDetail, hd, List.countP_cons] <;> omega

theorem foldl_collect_concurrentUsers :
    ∀ (l : List RequestDetail) (acc : ConcAcc),
      (l.foldl collectDetail acc).res.concurrentUsers = acc.res.concurrentUsers := by
  intro l
  induction l with
  | nil => intro acc; simp
  | cons d t ih =>
      intro acc
      rw [List.foldl_cons, ih]
      cases hd : d.success <;> simp [collectDetail, hd]

theorem mkConcDetail_success (ep : Endpoint) (a : Attempt) (id : Nat) :
    (mkConcDetail ep a id).success = attemptValid ep a := by
  cases a <;> rfl

theorem concurrentDetails_length (server : Nat → Nat → Nat → Attempt) (ep : Endpoint) :
    (concurrentDetails server ep).length
      = ep.concurrent.users * (ep.concurrent.total / ep.concurrent.users) := by
  unfold concurrentDetails workerDetails
  rw [List.length_flatten]
  simp only [List.map_map, Function.comp_def, List.length_map, List.length_range]
  simp [List.map_const', List.sum_replicate, smul_eq_mul, Nat.mul_comm]

theorem countP_success_split (l : List RequestDetail) :
    l.length = l.countP (·.success) + l.countP (fun d => !d.success) := by
  induction l with
  | nil => simp
  | cons d t ih =>
      cases hd : d.success <;> simp [List.countP_cons, hd, ih] <;> omega

theorem concurrentDetails_countP_success (server : Nat → Nat → Nat → Attempt) (ep : Endpoint) :
    (concurrentDetails server ep).countP (·.success) = slotValidCount server ep := by
  unfold concurrentDetails workerDetails slotValidCount
  rw [List.countP_flatten]
  simp only [List.map_map, Function.comp_def, List.countP_map]
  simp [mkConcDetail_success, List.countP_eq_length_filter]

theorem concPost_totalRequests (acc : ConcAcc) :
    (concPost acc).totalRequests = acc.res.totalRequests := by
  unfold concPost; split <;> rfl

theorem concPost_successCount (acc : ConcAcc) :
    (concPost acc).successCount = acc.res.successCount := by
  unfold concPost; split <;> rfl

theorem concPost_failureCount (acc : ConcAcc) :
    (concPost acc).failureCount = acc.res.failureCount := by
  unfold concPost; split <;> rfl

theorem concPost_concurrentUsers (acc : ConcAcc) :
    (concPost acc).concurrentUsers = acc.res.concurrentUsers := by
  unfold concPost; split <;> rfl

theorem runConcurrent_counts (server : Nat → Nat → Nat → Attempt) (ep : Endpoint) :
    (runConcurrent server ep).1.totalRequests
        = ep.concurrent.users * (ep.concurrent.total / ep.concurrent.users) ∧
      (runConcurrent server ep).1.successCount = slotValidCount server ep ∧
      (runConcurrent server ep).1.failureCount
        = ep.concurrent.users * (ep.concurrent.total / ep.concurrent.users)
            - slotValidCount server ep ∧
      (runConcurrent server ep).1.concurrentUsers = ep.concurrent.users := by
  have hlen := concurrentDetails_length server ep
  have hcnt := concurrentDetails_countP_success server ep
  have hsplit := countP_success_split (concurrentDetails server ep)
  simp only [runConcurrent, concPost_totalRequests, concPost_successCount,
    concPost_failureCount, concPost_concurrentUsers, foldl_collect_totalRequests,
    foldl_collect_successCount, foldl_collect_failureCount, foldl_collect_concurrentUsers]
  simp only [emptyResult]
  refine ⟨by omega, by omega, by omega, trivial⟩

/-! ### Helper lemmas: sorted lists and percentiles -/

theorem getD_mono_of_sorted {l : List Nat} (h : List.Sorted (· ≤ ·) l) {i j : Nat}
    (hij : i ≤ j) (hj : j < l.length) : l.getD i 0 ≤ l.getD j 0 := by
  have hi : i < l.length := lt_of_le_of_lt hij hj
  rw [List.getD_eq_get _ _ hi, List.getD_eq_get _ _ hj]
  exact h.rel_get_of_le (Fin.mk_le_mk.mpr hij)

theorem getD_mem_of_lt {l : List Nat} {i : Nat} (hi : i < l.length) :
    l.getD i 0 ∈ l := by
  rw [List.getD_eq_get _ _ hi]
  exact l.get_mem i hi

theorem le_foldl_max_init (l : List Nat) (a : Nat) : a ≤ l.foldl max a := by
  induction l generalizing a with
  | nil => simp
  | cons x t ih => exact le_trans (le_max_left a x) (ih (max a x))

theorem mem_le_foldl_max {x : Nat} {l : List Nat} (hx : x ∈ l) (a : Nat) :
    x ≤ l.foldl max a := by
  induction l generalizing a with
  | nil => cases hx
  | cons y t ih =>
      rcases List.mem_cons.mp hx with rfl | hmem
      · exact le_trans (le_max_right a x) (le_foldl_max_init t (max a x))
      · exact ih hmem (max a y)

theorem calculatePercentiles_eq_of_ne_nil {l : List Nat} (h : l ≠ []) :
    calculatePercentiles l =
      ⟨(List.insertionSort (· ≤ ·) l).getD (l.length * 50 / 100) 0,
        (List.insertionSort (· ≤ ·) l).getD (l.length * 75 / 100) 0,
        (List.insertionSort (· ≤ ·) l).getD (l.length * 90 / 100) 0,
        (List.insertionSort (· ≤ ·) l).getD (l.length * 95 / 100) 0,
        (List.insertionSort (· ≤ ·) l).getD (l.length * 99 / 100) 0⟩ := by
  unfold calculatePercentiles
  rw [if_neg]
  simp [List.isEmpty_iff, h]

theorem calculatePercentiles_chain {l : List Nat} (h : l ≠ []) :
    (calculatePercentiles l).p50 ≤ (calculatePercentiles l).p75 ∧
      (calculatePercentiles l).p75 ≤ (calculatePercentiles l).p90 ∧
      (calculatePercentiles l).p90 ≤ (calculatePercentiles l).p95 ∧
      (calculatePercentiles l).p95 ≤ (calculatePercentiles l).p99 ∧
      (calculatePercentiles l).p99 ≤ l.foldl max 0 := by
  have hs : List.Sorted (· ≤ ·) (List.insertionSort (· ≤ ·) l) :=
    List.sorted_insertionSort _ l
  have hperm : List.Perm (List.insertionSort (· ≤ ·) l) l :=
    List.perm_insertionSort _ l
  have hlen : (List.insertionSort (· ≤ ·) l).length = l.length := hperm.length_eq
  have hn : 0 < l.length := List.length_pos.mpr h
  have h99 : l.length * 99 / 100 < l.length := by omega
  have h95 : l.length * 95 / 100 ≤ l.length * 99 / 100 := by omega
  have h90 : l.length * 90 / 100 ≤ l.length * 95 / 100 := by omega
  have h75 : l.length * 75 / 100 ≤ l.length * 90 / 100 := by omega
  have h50 : l.length * 50 / 100 ≤ l.length * 75 / 100 := by omega
  rw [calculatePercentiles_eq_of_ne_nil h]
  refine ⟨?_, ?_, ?_, ?_, ?_⟩
  · exact getD_mono_of_sorted hs h50 (by omega)
  · exact getD_mono_of_sorted hs h75 (by omega)
  · exact getD_mono_of_sorted hs h90 (by omega)
  · exact getD_mono_of_sorted hs h95 (by omega)
  · exact mem_le_foldl_max (hperm.subset (getD_mem_of_lt (by omega))) 0

/-! ### Helper lemmas: the float computations of the finalisation step -/

theorem goDiv_zero_left (e : Frac) (he : ¬e.num = 0) :
    GoFloat.div (.fin ⟨0, 1⟩) (.fin e) = .fin ⟨0, 1⟩ := by
  simp only [GoFloat.div]
  rw [if_neg he]
  unfold Frac.div
  split <;> simp [roundF]

theorem GoFloat_ofNat_zero : GoFloat.ofNat 0 = .fin ⟨0, 1⟩ := by decide

theorem finalize_rps_zero (res : TestResult) (e : Frac) (h : res.totalRequests = 0)
    (he : ¬e.num = 0) : (finalizeResult res e).requestsPerSecond = .fin ⟨0, 1⟩ := by
  show GoFloat.div (GoFloat.ofNat res.totalRequests) (.fin e) = .fin ⟨0, 1⟩
  rw [h, GoFloat_ofNat_zero, goDiv_zero_left e he]

theorem finalize_errorRate_nan (res : TestResult) (e : Frac)
    (h0 : res.totalRequests = 0) (hf : res.failureCount = 0) :
    (finalizeResult res e).errorRate = .nan := by
  show GoFloat.mul
      (GoFloat.div (GoFloat.ofNat res.failureCount) (GoFloat.ofNat res.totalRequests))
      (GoFloat.ofNat 100) = .nan
  rw [h0, hf]
  decide

/-! ### Helper lemma: exact-rational rate identity -/

theorem rates_sum_exact (s f t : Nat) (ht : t ≠ 0) (hp : s + f = t) :
    (f : ℚ) / t * 100 + (s : ℚ) / t * 100 = 100 := by
  have h : (s : ℚ) + f = t := by exact_mod_cast hp
  have htq : (t : ℚ) ≠ 0 := Nat.cast_ne_zero.mpr ht
  field_simp
  linarith

/-! ### Helper lemmas: wrapper unfoldings and congruence -/

theorem runEndpointSingle_def (server : Nat → Attempt) (ep : Endpoint) (e : Frac) :
    runEndpointSingle server ep e
      = addResult (finalizeResult
          (appendRunError (runSingle server ep).1 (runSingle server ep).2.2) e) := rfl

theorem runEndpointConcurrent_def (server : Nat → Nat → Nat → Attempt) (ep : Endpoint)
    (e : Frac) :
    runEndpointConcurrent server ep e
      = addResult (finalizeResult
          (appendErrMsg (runConcurrent server ep).1 (runConcurrent server ep).2) e) := rfl

theorem runSingle_partition (server : Nat → Attempt) (ep : Endpoint) :
    (runSingle server ep).1.successCount + (runSingle server ep).1.failureCount
      = (runSingle server ep).1.totalRequests :=
  runSingleAux_partition server ep (ep.retry.count + 1) 0 emptyResult none rfl

theorem runConcurrent_partition (server : Nat → Nat → Nat → Attempt) (ep : Endpoint) :
    (runConcurrent server ep).1.successCount + (runConcurrent server ep).1.failureCount
      = (runConcurrent server ep).1.totalRequests := by
  have hsplit := countP_success_split (concurrentDetails server ep)
  simp only [runConcurrent, concPost_totalRequests, concPost_successCount, concPost_failureCount,
    foldl_collect_totalRequests, foldl_collect_successCount, foldl_collect_failureCount]
  simp only [emptyResult]
  omega

theorem concurrentDetails_congr (s1 s2 : Nat → Nat → Nat → Attempt) (ep : Endpoint)
    (h : ∀ u j, s2 u j 0 = s1 u j 0) :
    concurrentDetails s2 ep = concurrentDetails s1 ep := by
  unfold concurrentDetails workerDetails
  refine congrArg List.flatten (List.map_congr_left ?_)
  intro u _
  exact List.map_congr_left fun j _ => by rw [h u j]

theorem runConcurrent_congr (s1 s2 : Nat → Nat → Nat → Attempt) (ep : Endpoint)
    (h : ∀ u j, s2 u j 0 = s1 u j 0) :
    runConcurrent s2 ep = runConcurrent s1 ep := by
  unfold runConcurrent
  rw [concurrentDetails_congr s1 s2 ep h]

theorem runEndpointConcurrent_congr (s1 s2 : Nat → Nat → Nat → Attempt) (ep : Endpoint)
    (e : Frac) (h : ∀ u j, s2 u j 0 = s1 u j 0) :
    runEndpointConcurrent s2 ep e = runEndpointConcurrent s1 ep e := by
  unfold runEndpointConcurrent
  rw [runConcurrent_congr s1 s2 ep h]

/-! ### Claims -/

/-- A transport-successful response body used in concrete runs. -/
def plainBody : RespBody := ⟨2, some [("title", .vStr "foo")]⟩

/-- One second of wall-clock time for the rate computations. -/
def oneSecond : Frac := ⟨1, 1⟩

/-- C7: `Validate` evaluates the status-code check and the duration check
independently without short-circuiting — a mismatching status always
contributes its violation and an exceeded duration always contributes its
violation, so one call can report both simultaneously — and the returned
`isValid` is true if and only if the violation list is empty. -/
theorem C7_theorem (expSt maxT st : Nat) (b : RespBody) (dur : Nat)
    (checks : List ValueCheck) :
    ((Validate expSt maxT st b dur checks).isValid = true ↔
        (Validate expSt maxT st b dur checks).errors = []) ∧
      (st ≠ expSt → statusMsg expSt st ∈ (Validate expSt maxT st b dur checks).errors) ∧
      (maxT < dur → durMsg maxT dur ∈ (Validate expSt maxT st b dur checks).errors) :=
  ⟨Validate_isValid_iff expSt maxT st b dur checks,
    fun h => Validate_status_mem expSt maxT st b dur checks h,
    fun h => Validate_dur_mem expSt maxT st b dur checks h⟩

/-- C7 witness: a single call with wrong status (500 vs 200) and exceeded
duration (70 > 50) reports both violations at once and is invalid. -/
theorem C7_witness :
    statusMsg 200 500 ∈ (Validate 200 50 500 plainBody 70 []).errors ∧
      durMsg 50 70 ∈ (Validate 200 50 500 plainBody 70 []).errors ∧
      (Validate 200 50 500 plainBody 70 []).isValid = false := by
  refine ⟨(C7_theorem 200 50 500 plainBody 70 []).2.1 (by decide),
    (C7_theorem 200 50 500 plainBody 70 []).2.2 (by decide), by decide⟩

/-- C8: the expected value and the actual JSON value are compared by their
canonical `%v` string representations, so when those strings agree the value
check contributes no violation regardless of a type mismatch — the call's
violations are exactly those of the same call without the check. -/
theorem C8_theorem (expSt maxT st blen dur : Nat) (m : List (String × GoValue))
    (p : String) (v w : GoValue) (hl : lookupKey m p = some w)
    (hc : w.sprintV = v.sprintV) :
    (Validate expSt maxT st ⟨blen, some m⟩ dur [⟨p, v⟩]).errors
      = (Validate expSt maxT st ⟨blen, some m⟩ dur []).errors := by
  unfold Validate
  simp [valueCheckErrors, hl, hc]

/-- C8 witness: expected integer `5` against body value string `"5"` — the
two values differ, but their canonical strings agree, so the check produces
no violation and the response validates. -/
theorem C8_witness :
    (Validate 200 50 200 ⟨3, some [("x", GoValue.vStr "5")]⟩ 10
        [⟨"x", GoValue.vInt 5⟩]).errors
      = (Validate 200 50 200 ⟨3, some [("x", GoValue.vStr "5")]⟩ 10 []).errors := by
  exact C8_theorem 200 50 200 3 10 [("x", GoValue.vStr "5")] "x" (GoValue.vInt 5)
    (GoValue.vStr "5") (by decide) (by decide)

/-- Endpoint of the C1 scenario: expect status 200, `retry.count = 2`,
single path (`users = 0`). -/
def epC1 : Endpoint :=
  ⟨"scenario-b", "http://example.com", "GET", "", ⟨200, 1000, []⟩, ⟨2, 0⟩, ⟨0, 0, 0⟩⟩

/-- A server that always answers with status 500 (transport-successful). -/
def serverC1 : Nat → Attempt := fun _ => .tok 500 plainBody 5

/-- C1 counterexample: with `retry.count = 2` and a server always returning
a non-matching status, exactly 3 attempts are made — but the summary records
`totalRequests = 3` and `failureCount = 3`, not `1` and `1` as claimed:
`runSingle` increments the counters on every transport-successful attempt. -/
theorem C1_counterexample :
    (runSingle serverC1 epC1).2.1 = 3 ∧
      (runEndpointSingle serverC1 epC1 oneSecond).totalRequests = 3 ∧
      (runEndpointSingle serverC1 epC1 oneSecond).failureCount = 3 ∧
      ¬((runEndpointSingle serverC1 epC1 oneSecond).totalRequests = 1 ∧
        (runEndpointSingle serverC1 epC1 oneSecond).failureCount = 1) := by
  decide

/-- C1 (amended): for a single-path endpoint whose server always returns a
transport-successful, non-matching status, exactly `retry.count + 1` attempts
are made, and every attempt is counted in the aggregate: the summary records
`totalRequests = retry.count + 1`, `failureCount = retry.count + 1` and
`successCount = 0` — intermediate failed attempts each increment the
counters rather than collapsing into one logical attempt. -/
theorem C1_theorem (server : Nat → Attempt) (ep : Endpoint) (e : Frac)
    (h : ∀ i, ∃ st b d, server i = .tok st b d ∧ st ≠ ep.expect.status) :
    (runSingle server ep).2.1 = ep.retry.count + 1 ∧
      (runEndpointSingle server ep e).totalRequests = ep.retry.count + 1 ∧
      (runEndpointSingle server ep e).failureCount = ep.retry.count + 1 ∧
      (runEndpointSingle server ep e).successCount = 0 := by
  have hall := runSingleAux_all_invalid server ep h (ep.retry.count + 1) 0 emptyResult none
  rw [runEndpointSingle_def]
  simp only [addResult_totalRequests, addResult_failureCount, addResult_successCount,
    finalizeResult_totalRequests, finalizeResult_failureCount, finalizeResult_successCount,
    appendRunError_totalRequests, appendRunError_failureCount, appendRunError_successCount]
  unfold runSingle
  refine ⟨hall.2.2.2, ?_, ?_, ?_⟩
  · rw [hall.1]; simp [emptyResult]
  · rw [hall.2.1]; simp [emptyResult]
  · rw [hall.2.2.1]; simp [emptyResult]

/-- C1 witness: the amended statement at the concrete scenario (status 500
against expected 200, `retry.count = 2`). -/
theorem C1_witness :
    (runSingle serverC1 epC1).2.1 = epC1.retry.count + 1 ∧
      (runEndpointSingle serverC1 epC1 oneSecond).totalRequests = epC1.retry.count + 1 ∧
      (runEndpointSingle serverC1 epC1 oneSecond).failureCount = epC1.retry.count + 1 ∧
      (runEndpointSingle serverC1 epC1 oneSecond).successCount = 0 :=
  C1_theorem serverC1 epC1 oneSecond fun _ => ⟨500, plainBody, 5, rfl, by decide⟩

/-- Endpoint of the C2/C6 scenario: expect status 200 within 50ns,
`retry.count = 1`, single path. -/
def epC2 : Endpoint :=
  ⟨"percentile-mix", "http://example.com", "GET", "", ⟨200, 50, []⟩, ⟨1, 0⟩, ⟨0, 0, 0⟩⟩

/-- First attempt answers in 100ns (exceeding the budget, hence invalid),
the retry answers in 10ns (valid). -/
def serverC2 : Nat → Attempt := fun i =>
  if i = 0 then .tok 200 plainBody 100 else .tok 200 plainBody 10

/-- The finalized summary of the C2/C6 scenario. -/
def resC2 : TestResult := runEndpointSingle serverC2 epC2 oneSecond

/-- C2 counterexample: in a run with one failed outcome (100ns, duration
violation) and one successful outcome (10ns), the percentiles the program
stores are those of the durations of all recorded details (all equal 100ns),
not those of the successful outcomes only (which would all equal 10ns) —
refuting the "successful (valid) outcomes only" part of the claim. -/
theorem C2_counterexample :
    specPercentilesSuccessOnly resC2 = ⟨10, 10, 10, 10, 10⟩ ∧
      resC2.percentiles = ⟨100, 100, 100, 100, 100⟩ ∧
      resC2.percentiles ≠ specPercentilesSuccessOnly resC2 := by
  decide

/-- C2 (amended): at finalization (`AddResult`) the percentiles are computed
once, over the value-sorted list of the durations of ALL recorded request
details (successful and failed alike), by indexing the sorted list at
`floor(percentileFraction * count)` (nearest-rank, zero-indexed): the sorted
list is the sorted permutation of the full duration list, and each stored
percentile is the entry at the corresponding floor index. -/
theorem C2_theorem (res : TestResult) (h : res.requestDetails ≠ []) :
    List.Perm (List.insertionSort (· ≤ ·) (res.requestDetails.map (·.duration)))
        (res.requestDetails.map (·.duration)) ∧
      List.Sorted (· ≤ ·)
        (List.insertionSort (· ≤ ·) (res.requestDetails.map (·.duration))) ∧
      (addResult res).percentiles =
        ⟨(List.insertionSort (· ≤ ·) (res.requestDetails.map (·.duration))).getD
            ((res.requestDetails.map (·.duration)).length * 50 / 100) 0,
          (List.insertionSort (· ≤ ·) (res.requestDetails.map (·.duration))).getD
            ((res.requestDetails.map (·.duration)).length * 75 / 100) 0,
          (List.insertionSort (· ≤ ·) (res.requestDetails.map (·.duration))).getD
            ((res.requestDetails.map (·.duration)).length * 90 / 100) 0,
          (List.insertionSort (· ≤ ·) (res.requestDetails.map (·.duration))).getD
            ((res.requestDetails.map (·.duration)).length * 95 / 100) 0,
          (List.insertionSort (· ≤ ·) (res.requestDetails.map (·.duration))).getD
            ((res.requestDetails.map (·.duration)).length * 99 / 100) 0⟩ := by
  have hne : res.requestDetails.map (·.duration) ≠ [] := by
    intro hmap
    exact h (List.map_eq_nil.mp hmap)
  refine ⟨List.perm_insertionSort _ _, List.sorted_insertionSort _ _, ?_⟩
  rw [addResult_percentiles, calculatePercentiles_eq_of_ne_nil hne]

/-- C2 witness: the amended statement at a concrete two-detail summary. -/
def resW2 : TestResult :=
  { emptyResult with
      requestDetails := [⟨1, 30, 200, true, "", 3, []⟩, ⟨2, 40, 500, false, "", 3, []⟩] }

/-- C2 witness: the amended characterization applied to `resW2`. -/
theorem C2_witness :
    List.Perm (List.insertionSort (· ≤ ·) (resW2.requestDetails.map (·.duration)))
        (resW2.requestDetails.map (·.duration)) ∧
      List.Sorted (· ≤ ·)
        (List.insertionSort (· ≤ ·) (resW2.requestDetails.map (·.duration))) ∧
      (addResult resW2).percentiles =
        ⟨(List.insertionSort (· ≤ ·) (resW2.requestDetails.map (·.duration))).getD
            ((resW2.requestDetails.map (·.duration)).length * 50 / 100) 0,
          (List.insertionSort (· ≤ ·) (resW2.requestDetails.map (·.duration))).getD
            ((resW2.requestDetails.map (·.duration)).length * 75 / 100) 0,
          (List.insertionSort (· ≤ ·) (resW2.requestDetails.map (·.duration))).getD
            ((resW2.requestDetails.map (·.duration)).length * 90 / 100) 0,
          (List.insertionSort (· ≤ ·) (resW2.requestDetails.map (·.duration))).getD
            ((resW2.requestDetails.map (·.duration)).length * 95 / 100) 0,
          (List.insertionSort (· ≤ ·) (resW2.requestDetails.map (·.duration))).getD
            ((resW2.requestDetails.map (·.duration)).length * 99 / 100) 0⟩ :=
  C2_theorem resW2 (by decide)

/-- Endpoint of the C6 counterexample scenario (same shape as `epC2`,
declared separately for the C6 development). -/
def epC6 : Endpoint :=
  ⟨"percentile-order", "http://example.com", "GET", "", ⟨200, 50, []⟩, ⟨1, 0⟩, ⟨0, 0, 0⟩⟩

/-- First attempt 100ns (duration violation, invalid), retry 10ns (valid). -/
def serverC6 : Nat → Attempt := fun i =>
  if i = 0 then .tok 200 plainBody 100 else .tok 200 plainBody 10

/-- The finalized summary of the C6 counterexample scenario. -/
def resC6 : TestResult := runEndpointSingle serverC6 epC6 oneSecond

/-- C6 counterexample: the percentiles are computed over all recorded
details while `maxLatency` tracks successful outcomes only, so a failed
outcome slower than every successful one makes `p99` exceed `maxLatency`:
here `p99 = 100` but `maxLatency = 10`, refuting `p99 ≤ maxLatency`. -/
theorem C6_counterexample :
    resC6.successCount = 1 ∧
      resC6.maxLatency = 10 ∧
      resC6.percentiles.p99 = 100 ∧
      ¬(resC6.percentiles.p99 ≤ resC6.maxLatency) := by
  decide

/-- C6 (amended): for every summary with at least one recorded request
detail, the finalized percentiles satisfy `p50 ≤ p75 ≤ p90 ≤ p95 ≤ p99`,
and `p99` is bounded by the maximum duration over ALL recorded details —
the bound by the successful-only `maxLatency` field can fail, because the
percentile population includes failed outcomes' durations. -/
theorem C6_theorem (res : TestResult) (h : res.requestDetails ≠ []) :
    (addResult res).percentiles.p50 ≤ (addResult res).percentiles.p75 ∧
      (addResult res).percentiles.p75 ≤ (addResult res).percentiles.p90 ∧
      (addResult res).percentiles.p90 ≤ (addResult res).percentiles.p95 ∧
      (addResult res).percentiles.p95 ≤ (addResult res).percentiles.p99 ∧
      (addResult res).percentiles.p99
        ≤ (res.requestDetails.map (·.duration)).foldl max 0 := by
  have hne : res.requestDetails.map (·.duration) ≠ [] := by
    intro hmap
    exact h (List.map_eq_nil.mp hmap)
  rw [addResult_percentiles]
  exact calculatePercentiles_chain hne

/-- C6 witness: the amended chain at a concrete two-detail summary. -/
def resW6 : TestResult :=
  { emptyResult with
      requestDetails := [⟨1, 25, 200, true, "", 3, []⟩, ⟨2, 60, 500, false, "", 3, []⟩] }

/-- C6 witness: the percentile chain applied to `resW6`. -/
theorem C6_witness :
    (addResult resW6).percentiles.p50 ≤ (addResult resW6).percentiles.p75 ∧
      (addResult resW6).percentiles.p75 ≤ (addResult resW6).percentiles.p90 ∧
      (addResult resW6).percentiles.p90 ≤ (addResult resW6).percentiles.p95 ∧
      (addResult resW6).percentiles.p95 ≤ (addResult resW6).percentiles.p99 ∧
      (addResult resW6).percentiles.p99
        ≤ (resW6.requestDetails.map (·.duration)).foldl max 0 :=
  C6_theorem resW6 (by decide)

/-- Endpoint of the C3 counterexample: one user, one request,
`retry.count = 1`. -/
def epC3 : Endpoint :=
  ⟨"conc-retry", "http://example.com", "GET", "", ⟨200, 1000, []⟩, ⟨1, 0⟩, ⟨1, 0, 1⟩⟩

/-- A slot whose first attempt fails validation (status 500) and whose
second attempt would succeed (status 200): a retrying scheduler would end
in success, the actual code never issues the second attempt. -/
def serverC3 : Nat → Nat → Nat → Attempt := fun _ _ k =>
  if k = 0 then .tok 500 plainBody 5 else .tok 200 plainBody 5

/-- The finalized summary of the C3 counterexample scenario. -/
def resC3 : TestResult := runEndpointConcurrent serverC3 epC3 oneSecond

/-- C3 counterexample: with `retry.count = 1` and a slot that fails on its
first attempt but would validate on a retry, the concurrent path records a
failure — the retrying behaviour the claim prescribes would record a
success.  The concurrent worker loop contains no retry. -/
theorem C3_counterexample :
    resC3.successCount = 0 ∧
      resC3.failureCount = 1 ∧
      specConcurrentSuccessCount serverC3 epC3 = 1 ∧
      resC3.successCount ≠ specConcurrentSuccessCount serverC3 epC3 := by
  decide

/-- C3 (amended): in the concurrent path each worker issues each of its
`total / users` requests exactly once, with no retries: the summary counts
one outcome per slot (`totalRequests = users * (total / users)`), a slot is
counted successful exactly when its single issued request validates, every
other slot is counted failed, and the whole run result depends only on the
first (index-0) attempt of every slot — the retry budget is never consulted. -/
theorem C3_theorem (server : Nat → Nat → Nat → Attempt) (ep : Endpoint) (e : Frac)
    (_h : 0 < ep.concurrent.users) :
    (runEndpointConcurrent server ep e).totalRequests
        = ep.concurrent.users * (ep.concurrent.total / ep.concurrent.users) ∧
      (runEndpointConcurrent server ep e).successCount = slotValidCount server ep ∧
      (runEndpointConcurrent server ep e).failureCount
        = ep.concurrent.users * (ep.concurrent.total / ep.concurrent.users)
            - slotValidCount server ep ∧
      (∀ server2 : Nat → Nat → Nat → Attempt,
        (∀ u j, server2 u j 0 = server u j 0) →
        runEndpointConcurrent server2 ep e = runEndpointConcurrent server ep e) := by
  have hc := runConcurrent_counts server ep
  rw [runEndpointConcurrent_def]
  simp only [addResult_totalRequests, addResult_successCount, addResult_failureCount,
    finalizeResult_totalRequests, finalizeResult_successCount, finalizeResult_failureCount,
    appendErrMsg_totalRequests, appendErrMsg_successCount, appendErrMsg_failureCount]
  refine ⟨hc.1, hc.2.1, hc.2.2.1, ?_⟩
  intro server2 hagree
  exact runEndpointConcurrent_congr server server2 ep e hagree

/-- C3 witness: the amended characterization at the concrete one-slot
scenario (the single slot's issued request fails validation). -/
theorem C3_witness :
    (runEndpointConcurrent serverC3 epC3 oneSecond).totalRequests
        = epC3.concurrent.users * (epC3.concurrent.total / epC3.concurrent.users) ∧
      (runEndpointConcurrent serverC3 epC3 oneSecond).successCount
        = slotValidCount serverC3 epC3 ∧
      (runEndpointConcurrent serverC3 epC3 oneSecond).failureCount
        = epC3.concurrent.users * (epC3.concurrent.total / epC3.concurrent.users)
            - slotValidCount serverC3 epC3 ∧
      (∀ server2 : Nat → Nat → Nat → Attempt,
        (∀ u j, server2 u j 0 = serverC3 u j 0) →
        runEndpointConcurrent server2 epC3 oneSecond
          = runEndpointConcurrent serverC3 epC3 oneSecond) :=
  C3_theorem serverC3 epC3 oneSecond (by decide)

/-- Endpoint of the C4 counterexample: `retry.count = 0` and a concurrency
profile `users = 2, total = 1` whose integer partition issues no requests. -/
def epC4 : Endpoint :=
  ⟨"zero-requests", "http://example.com", "GET", "", ⟨200, 1000, []⟩, ⟨0, 0⟩, ⟨2, 0, 1⟩⟩

/-- A single-path server that always fails at the transport level. -/
def serverC4 : Nat → Attempt := fun _ => .terr "connection refused" 7

/-- A concurrent-path server (never actually consulted in the scenario). -/
def serverC4N : Nat → Nat → Nat → Attempt := fun _ _ _ => .tok 200 plainBody 5

/-- C4 counterexample: a single-path run whose only attempt is a transport
error produces `totalRequests = 0`; the finalisation then computes
`requestsPerSecond = 0` but `errorRate = 0.0/0.0 = NaN` — not `0` as the
claim states (no crash occurs, but the stored value is NaN). -/
theorem C4_counterexample :
    (runEndpointSingle serverC4 epC4 oneSecond).totalRequests = 0 ∧
      (runEndpointSingle serverC4 epC4 oneSecond).requestsPerSecond = .fin ⟨0, 1⟩ ∧
      (runEndpointSingle serverC4 epC4 oneSecond).errorRate = .nan ∧
      (runEndpointSingle serverC4 epC4 oneSecond).errorRate.isZero = false := by
  decide

/-- C4 (amended): for every endpoint run (either path) with
`totalRequests = 0` and a positive wall-clock window, the summary records
`requestsPerSecond = 0` (zero divided by the elapsed seconds) while
`errorRate` is NaN (the float division `0/0` is performed; Go float
arithmetic yields NaN rather than crashing). -/
theorem C4_theorem (server1 : Nat → Attempt) (serverN : Nat → Nat → Nat → Attempt)
    (ep : Endpoint) (e : Frac) (he : ¬e.num = 0) :
    ((runEndpointSingle server1 ep e).totalRequests = 0 →
        (runEndpointSingle server1 ep e).requestsPerSecond = .fin ⟨0, 1⟩ ∧
          (runEndpointSingle server1 ep e).errorRate = .nan) ∧
      ((runEndpointConcurrent serverN ep e).totalRequests = 0 →
        (runEndpointConcurrent serverN ep e).requestsPerSecond = .fin ⟨0, 1⟩ ∧
          (runEndpointConcurrent serverN ep e).errorRate = .nan) := by
  constructor
  · intro h0
    rw [runEndpointSingle_def] at h0 ⊢
    rw [addResult_totalRequests, finalizeResult_totalRequests,
      appendRunError_totalRequests] at h0
    have hpart := runSingle_partition server1 ep
    have hf : (runSingle server1 ep).1.failureCount = 0 := by omega
    have hYt : (appendRunError (runSingle server1 ep).1
        (runSingle server1 ep).2.2).totalRequests = 0 := by
      rw [appendRunError_totalRequests]; exact h0
    have hYf : (appendRunError (runSingle server1 ep).1
        (runSingle server1 ep).2.2).failureCount = 0 := by
      rw [appendRunError_failureCount]; exact hf
    constructor
    · rw [addResult_requestsPerSecond]
      exact finalize_rps_zero _ e hYt he
    · rw [addResult_errorRate]
      exact finalize_errorRate_nan _ e hYt hYf
  · intro h0
    rw [runEndpointConcurrent_def] at h0 ⊢
    rw [addResult_totalRequests, finalizeResult_totalRequests,
      appendErrMsg_totalRequests] at h0
    have hpart := runConcurrent_partition serverN ep
    have hf : (runConcurrent serverN ep).1.failureCount = 0 := by omega
    have hYt : (appendErrMsg (runConcurrent serverN ep).1
        (runConcurrent serverN ep).2).totalRequests = 0 := by
      rw [appendErrMsg_totalRequests]; exact h0
    have hYf : (appendErrMsg (runConcurrent serverN ep).1
        (runConcurrent serverN ep).2).failureCount = 0 := by
      rw [appendErrMsg_failureCount]; exact hf
    constructor
    · rw [addResult_requestsPerSecond]
      exact finalize_rps_zero _ e hYt he
    · rw [addResult_errorRate]
      exact finalize_errorRate_nan _ e hYt hYf

/-- C4 witness: the amended statement at the concrete zero-request runs
(single path: only transport errors; concurrent path: `1 / 2 = 0` requests
per user). -/
theorem C4_witness :
    ((runEndpointSingle serverC4 epC4 oneSecond).requestsPerSecond = .fin ⟨0, 1⟩ ∧
        (runEndpointSingle serverC4 epC4 oneSecond).errorRate = .nan) ∧
      ((runEndpointConcurrent serverC4N epC4 oneSecond).requestsPerSecond = .fin ⟨0, 1⟩ ∧
        (runEndpointConcurrent serverC4N epC4 oneSecond).errorRate = .nan) := by
  have h := C4_theorem serverC4 serverC4N epC4 oneSecond (by decide)
  exact ⟨h.1 (by decide), h.2 (by decide)⟩

/-- Endpoint of the C5 witness: `users = 5`, `total = 50`. -/
def epC5 : Endpoint :=
  ⟨"scenario-c", "http://example.com", "GET", "", ⟨200, 1000, []⟩, ⟨0, 0⟩, ⟨5, 0, 50⟩⟩

/-- A concurrent server that always answers 200 within budget. -/
def serverC5 : Nat → Nat → Nat → Attempt := fun _ _ _ => .tok 200 plainBody 5

/-- C5: for every endpoint with `users > 0`, in an uncancelled concurrent
run the summary records `totalRequests = (total / users) * users` under
integer division (each worker issues exactly `total / users` requests,
remainder requests are never issued) and `concurrentUsers = users`. -/
theorem C5_theorem (server : Nat → Nat → Nat → Attempt) (ep : Endpoint) (e : Frac)
    (_h : 0 < ep.concurrent.users) :
    (runEndpointConcurrent server ep e).totalRequests
        = ep.concurrent.total / ep.concurrent.users * ep.concurrent.users ∧
      (runEndpointConcurrent server ep e).concurrentUsers = ep.concurrent.users := by
  have hc := runConcurrent_counts server ep
  rw [runEndpointConcurrent_def]
  simp only [addResult_totalRequests, addResult_concurrentUsers,
    finalizeResult_totalRequests, finalizeResult_concurrentUsers,
    appendErrMsg_totalRequests, appendErrMsg_concurrentUsers]
  exact ⟨by rw [hc.1, Nat.mul_comm], hc.2.2.2⟩

/-- C5 witness: the statement at `users = 5`, `total = 50` (Scenario C). -/
theorem C5_witness :
    (runEndpointConcurrent serverC5 epC5 oneSecond).totalRequests
        = epC5.concurrent.total / epC5.concurrent.users * epC5.concurrent.users ∧
      (runEndpointConcurrent serverC5 epC5 oneSecond).concurrentUsers
        = epC5.concurrent.users :=
  C5_theorem serverC5 epC5 oneSecond (by decide)

/-- Endpoint of the C9 counterexample: `users = 3`, `total = 3`. -/
def epC9 : Endpoint :=
  ⟨"rates", "http://example.com", "GET", "", ⟨200, 1000, []⟩, ⟨0, 0⟩, ⟨3, 0, 3⟩⟩

/-- Worker 0's request fails validation (status 500), the others succeed. -/
def serverC9 : Nat → Nat → Nat → Attempt := fun u _ _ =>
  if u = 0 then .tok 500 plainBody 5 else .tok 200 plainBody 5

/-- The finalized summary of the C9 counterexample scenario. -/
def resC9 : TestResult := runEndpointConcurrent serverC9 epC9 oneSecond

/-- C9 counterexample: with `totalRequests = 3`, `failureCount = 1`,
`successCount = 2`, the float64 sum `errorRate + successCount/total*100`
is `99.99999999999999`, not `100`: each division and multiplication is
rounded to binary64, and the claimed identity fails under Go `==`. -/
theorem C9_counterexample :
    resC9.totalRequests = 3 ∧
      resC9.successCount = 2 ∧
      resC9.failureCount = 1 ∧
      GoFloat.beq (GoFloat.add resC9.errorRate (chartSuccessRate resC9))
        (GoFloat.ofNat 100) = false := by
  decide

/-- C9 (amended): every counted request is classified as exactly one of
success or failure — `successCount + failureCount = totalRequests` on both
execution paths — and the rate identity
`failureCount/total*100 + successCount/total*100 = 100` holds in exact
rational arithmetic whenever `totalRequests ≠ 0`; the float64-computed sum
can deviate from `100` only by rounding. -/
theorem C9_theorem (server1 : Nat → Attempt) (serverN : Nat → Nat → Nat → Attempt)
    (ep : Endpoint) (e : Frac) :
    (runEndpointSingle server1 ep e).successCount
          + (runEndpointSingle server1 ep e).failureCount
        = (runEndpointSingle server1 ep e).totalRequests ∧
      (runEndpointConcurrent serverN ep e).successCount
          + (runEndpointConcurrent serverN ep e).failureCount
        = (runEndpointConcurrent serverN ep e).totalRequests ∧
      ((runEndpointConcurrent serverN ep e).totalRequests ≠ 0 →
        ((runEndpointConcurrent serverN ep e).failureCount : ℚ)
              / (runEndpointConcurrent serverN ep e).totalRequests * 100
            + ((runEndpointConcurrent serverN ep e).successCount : ℚ)
              / (runEndpointConcurrent serverN ep e).totalRequests * 100
          = 100) := by
  have h1 : (runEndpointSingle server1 ep e).successCount
        + (runEndpointSingle server1 ep e).failureCount
      = (runEndpointSingle server1 ep e).totalRequests := by
    rw [runEndpointSingle_def]
    simp only [addResult_totalRequests, addResult_successCount, addResult_failureCount,
      finalizeResult_totalRequests, finalizeResult_successCount, finalizeResult_failureCount,
      appendRunError_totalRequests, appendRunError_successCount, appendRunError_failureCount]
    exact runSingle_partition server1 ep
  have h2 : (runEndpointConcurrent serverN ep e).successCount
        + (runEndpointConcurrent serverN ep e).failureCount
      = (runEndpointConcurrent serverN ep e).totalRequests := by
    rw [runEndpointConcurrent_def]
    simp only [addResult_totalRequests, addResult_successCount, addResult_failureCount,
      finalizeResult_totalRequests, finalizeResult_successCount, finalizeResult_failureCount,
      appendErrMsg_totalRequests, appendErrMsg_successCount, appendErrMsg_failureCount]
    exact runConcurrent_partition serverN ep
  refine ⟨h1, h2, fun ht => ?_⟩
  exact rates_sum_exact (runEndpointConcurrent serverN ep e).successCount
    (runEndpointConcurrent serverN ep e).failureCount
    (runEndpointConcurrent serverN ep e).totalRequests ht h2

/-- C9 witness: the amended statement at the concrete three-request run
(`totalRequests = 3`), including the exact-rational identity. -/
theorem C9_witness :
    (runEndpointSingle serverC4 epC9 oneSecond).successCount
          + (runEndpointSingle serverC4 epC9 oneSecond).failureCount
        = (runEndpointSingle serverC4 epC9 oneSecond).totalRequests ∧
      ((runEndpointConcurrent serverC9 epC9 oneSecond).failureCount : ℚ)
            / (runEndpointConcurrent serverC9 epC9 oneSecond).totalRequests * 100
          + ((runEndpointConcurrent serverC9 epC9 oneSecond).successCount : ℚ)
            / (runEndpointConcurrent serverC9 epC9 oneSecond).totalRequests * 100
        = 100 := by
  have h := C9_theorem serverC4 serverC9 epC9 oneSecond
  exact ⟨h.1, h.2.2 (by decide)⟩

/-- Endpoint of the C10 scenario: `0 < total < users` (`users = 2`,
`total = 1`), with non-empty URL and method. -/
def epC10 : Endpoint :=
  ⟨"starved", "http://example.com", "GET", "", ⟨200, 1000, []⟩, ⟨0, 0⟩, ⟨2, 0, 1⟩⟩

/-- A concurrent server for the C10 scenario (never consulted). -/
def serverC10 : Nat → Nat → Nat → Attempt := fun _ _ _ => .tok 200 plainBody 5

/-- C10: an endpoint with `0 < total < users` passes configuration
validation (only `users > 0 ∧ total = 0` is rejected), yet the concurrent
run issues zero requests — `total / users = 0` gives every worker an empty
share — so the summary records `totalRequests = successCount =
failureCount = 0`. -/
theorem C10_theorem (server : Nat → Nat → Nat → Attempt) (ep : Endpoint) (e : Frac)
    (h1 : 0 < ep.concurrent.total) (h2 : ep.concurrent.total < ep.concurrent.users)
    (h3 : ep.url ≠ "") (h4 : ep.method ≠ "") :
    endpointValidationError ep = none ∧
      configValidate [ep] = none ∧
      (runEndpointConcurrent server ep e).totalRequests = 0 ∧
      (runEndpointConcurrent server ep e).successCount = 0 ∧
      (runEndpointConcurrent server ep e).failureCount = 0 := by
  have hval : endpointValidationError ep = none := by
    have ht : ep.concurrent.total ≠ 0 := Nat.pos_iff_ne_zero.mp h1
    simp [endpointValidationError, h3, h4, ht]
  have hdiv : ep.concurrent.total / ep.concurrent.users = 0 := Nat.div_eq_of_lt h2
  have hslot : slotValidCount server ep = 0 := by
    simp [slotValidCount, hdiv]
  have hc := runConcurrent_counts server ep
  refine ⟨hval, ?_, ?_, ?_, ?_⟩
  · simp [configValidate, List.findSome?, hval]
  all_goals
    rw [runEndpointConcurrent_def]
  · rw [addResult_totalRequests, finalizeResult_totalRequests, appendErrMsg_totalRequests,
      hc.1, hdiv, Nat.mul_zero]
  · rw [addResult_successCount, finalizeResult_successCount, appendErrMsg_successCount,
      hc.2.1, hslot]
  · rw [addResult_failureCount, finalizeResult_failureCount, appendErrMsg_failureCount,
      hc.2.2.1, hslot, hdiv, Nat.mul_zero]

/-- C10 witness: the statement at the concrete endpoint with `users = 2`,
`total = 1`. -/
theorem C10_witness :
    endpointValidationError epC10 = none ∧
      configValidate [epC10] = none ∧
      (runEndpointConcurrent serverC10 epC10 oneSecond).totalRequests = 0 ∧
      (runEndpointConcurrent serverC10 epC10 oneSecond).successCount = 0 ∧
      (runEndpointConcurrent serverC10 epC10 oneSecond).failureCount = 0 :=
  C10_theorem serverC10 epC10 oneSecond (by decide) (by decide) (by decide) (by decide)
